import Mathlib

/-
  Verification development for the vantage-qlink-api protocol bridge.

  The definitions below are shallow embeddings of the repository's
  JavaScript sources:
    - src/src/core/queue.js        (send queue: runQueued / pumpQueue)
    - src/src/core/parsing.js      (line handlers, push pipeline entry)
    - src/src/core/context.js      (the shared mutable context)
    - src/src/routes/vgs.js        (GET /status/vgs)
    - src/src/routes/vgs_helpers.js (awaitVGS / sendVGSWithAwaiter)
    - src/src/routes/dim.js        (POST /dim, GET /dim error handling)
    - src/src/routes/io.js         (POST /send)
    - src/unnamed/part_000         (state.js: setState)
    - src/unnamed/part_001         (tcp.js: ensureDisconnected)
    - src/unnamed/part_006         (load_helpers.js: awaitLoad)
    - src/unnamed/part_007         (test.js: /test/vsw)

  Times are naturals (milliseconds since an arbitrary origin); JavaScript
  Date.now() values are monotone along an execution, which is reflected by
  hypotheses of the form lastSendAt <= now where needed.
-/

namespace VantageQlink

/-! ### Send queue model (src/src/core/queue.js)

An item of ctx.__queue.  fn is abstracted by the time it takes to settle
(duration) and whether it resolves or throws (succeeds); id tags the item. -/

structure SendItem where
  priority : Int
  enqueuedAt : Nat
  duration : Nat
  succeeds : Bool
  id : Nat
deriving DecidableEq, Repr

/-- Pumper-relevant context state: the wall clock and ctx.__lastSendAt. -/
structure PumpState where
  now : Nat
  lastSendAt : Nat
deriving DecidableEq, Repr

/-- Instant at which the pumper starts executing item.fn: after
shifting the item it computes gap = max(0, MIN_GAP_MS - (now - lastSendAt))
and sleeps that long (queue.js lines 12-14).  Nat subtraction is truncated,
which matches max(0, _) given lastSendAt <= now. -/
def fnStartTime (gapMs : Nat) (st : PumpState) : Nat :=
  st.now + (gapMs - (st.now - st.lastSendAt))

/-- One iteration of the pump loop body (queue.js lines 10-21): sleep the
gap, run fn; on resolve set ctx.__lastSendAt := Date.now() and resolve the
caller; on throw reject the caller WITHOUT touching __lastSendAt.  Returns
the new state and the completion instant of the write when fn succeeded. -/
def pumpStep (gapMs : Nat) (st : PumpState) (item : SendItem) : PumpState × Option Nat :=
  let s := fnStartTime gapMs st
  let e := s + item.duration
  if item.succeeds then (⟨e, e⟩, some e) else (⟨e, st.lastSendAt⟩, none)

/-- The pump loop over a queue snapshot, collecting the completion times of
the successful fn executions in order. -/
def pumpRun (gapMs : Nat) (st : PumpState) : List SendItem → PumpState × List Nat
  | [] => (st, [])
  | item :: rest =>
    let r := pumpStep gapMs st item
    let rr := pumpRun gapMs r.1 rest
    (rr.1, match r.2 with | some t => t :: rr.2 | none => rr.2)

/-- Queue insertion performed by runQueued (queue.js lines 28-35): splice
the new item just before the first queued item of strictly lower priority,
or push at the end when there is none. -/
def runQueuedInsert (item : SendItem) : List SendItem → List SendItem
  | [] => [item]
  | x :: xs =>
    if x.priority < item.priority then item :: x :: xs
    else x :: runQueuedInsert item xs

/-- Intended queue order: priority descending privately, enqueue time
ascending within a priority level. -/
def queueLe (a b : SendItem) : Prop :=
  b.priority < a.priority ∨ (b.priority = a.priority ∧ a.enqueuedAt ≤ b.enqueuedAt)

instance : DecidableRel queueLe := fun a b => by unfold queueLe; infer_instance

/-- The send queue invariant: pairwise ordered by queueLe. -/
def queueOrdered (q : List SendItem) : Prop := List.Pairwise queueLe q

instance (q : List SendItem) : Decidable (queueOrdered q) := by
  unfold queueOrdered; infer_instance

lemma fnStartTime_lb (gapMs : Nat) (st : PumpState) (h : st.lastSendAt ≤ st.now) :
    st.lastSendAt + gapMs ≤ fnStartTime gapMs st ∧ st.now ≤ fnStartTime gapMs st := by
  unfold fnStartTime; omega

lemma pumpRun_inv (gapMs : Nat) :
    ∀ (items : List SendItem) (st : PumpState), st.lastSendAt ≤ st.now →
      List.Chain' (fun a b => a + gapMs ≤ b) (pumpRun gapMs st items).2 ∧
      (∀ c ∈ (pumpRun gapMs st items).2, st.lastSendAt + gapMs ≤ c) ∧
      (pumpRun gapMs st items).1.lastSendAt ≤ (pumpRun gapMs st items).1.now := by
  intro items
  induction items with
  | nil =>
    intro st h
    refine ⟨by simp [pumpRun], by simp [pumpRun], by simpa [pumpRun] using h⟩
  | cons item rest ih =>
    intro st h
    have hlb := fnStartTime_lb gapMs st h
    by_cases hs : item.succeeds
    · have hstep : pumpStep gapMs st item
          = (⟨fnStartTime gapMs st + item.duration, fnStartTime gapMs st + item.duration⟩,
             some (fnStartTime gapMs st + item.duration)) := by
        simp [pumpStep, hs]
      have hrec := ih ⟨fnStartTime gapMs st + item.duration,
          fnStartTime gapMs st + item.duration⟩ (le_refl _)
      have hrun : pumpRun gapMs st (item :: rest)
          = ((pumpRun gapMs ⟨fnStartTime gapMs st + item.duration,
                fnStartTime gapMs st + item.duration⟩ rest).1,
             (fnStartTime gapMs st + item.duration)
               :: (pumpRun gapMs ⟨fnStartTime gapMs st + item.duration,
                     fnStartTime gapMs st + item.duration⟩ rest).2) := by
        simp [pumpRun, hstep]
      rw [hrun]
      refine ⟨?_, ?_, hrec.2.2⟩
      · refine List.chain'_cons'.mpr ⟨?_, hrec.1⟩
        intro y hy
        have hy2 := hrec.2.1 y (List.mem_of_mem_head? hy)
        simpa using hy2
      · intro c hc
        rcases List.mem_cons.mp hc with hc | hc
        · subst hc; omega
        · have hcc := hrec.2.1 c hc
          simp only at hcc
          omega
    · have hs' : item.succeeds = false := by
        simpa using hs
      have hstep : pumpStep gapMs st item
          = (⟨fnStartTime gapMs st + item.duration, st.lastSendAt⟩, none) := by
        simp [pumpStep, hs']
      have hle : st.lastSendAt ≤ fnStartTime gapMs st + item.duration := by
        omega
      have hrec := ih ⟨fnStartTime gapMs st + item.duration, st.lastSendAt⟩ hle
      have hrun : pumpRun gapMs st (item :: rest)
          = ((pumpRun gapMs ⟨fnStartTime gapMs st + item.duration, st.lastSendAt⟩ rest).1,
             (pumpRun gapMs ⟨fnStartTime gapMs st + item.duration, st.lastSendAt⟩ rest).2) := by
        simp [pumpRun, hstep]
      rw [hrun]
      exact ⟨hrec.1, fun c hc => hrec.2.1 c hc, hrec.2.2⟩

/-- C1 (amended): for every pair of consecutive completed (successful)
on-wire writes executed by the pump loop, the completion time of the second
is at least gapMs after the completion time of the first — the pumper
sleeps until now >= lastSendAt + gapMs before running the next fn; but
lastSendAt is updated only when fn returns successfully: when fn throws,
pumpStep leaves lastSendAt unchanged (queue.js lines 15-21). -/
theorem pacing_min_gap_between_completed_writes (gapMs : Nat) (st : PumpState)
    (items : List SendItem) (item : SendItem)
    (h : st.lastSendAt ≤ st.now) (hf : item.succeeds = false) :
    List.Chain' (fun a b => a + gapMs ≤ b) (pumpRun gapMs st items).2 ∧
    (pumpStep gapMs st item).1.lastSendAt = st.lastSendAt := by
  refine ⟨(pumpRun_inv gapMs items st h).1, ?_⟩
  simp [pumpStep, hf]

theorem pacing_min_gap_witness :
    (0 : Nat) ≤ 0 ∧
    ((⟨0, 1, 0, false, 2⟩ : SendItem).succeeds = false) ∧
    (List.Chain' (fun a b => a + 120 ≤ b)
        (pumpRun 120 ⟨0, 0⟩
          [⟨0, 0, 5, true, 1⟩, ⟨0, 1, 9, false, 2⟩, ⟨0, 2, 7, true, 3⟩]).2 ∧
      (pumpStep 120 (⟨0, 0⟩ : PumpState) ⟨0, 1, 0, false, 2⟩).1.lastSendAt = 0) :=
  ⟨le_refl 0, by decide,
    pacing_min_gap_between_completed_writes 120 ⟨0, 0⟩
      [⟨0, 0, 5, true, 1⟩, ⟨0, 1, 9, false, 2⟩, ⟨0, 2, 7, true, 3⟩]
      ⟨0, 1, 0, false, 2⟩ (le_refl 0) (by decide)⟩

/-- C1 counterexample: the claim as stated says lastSendAt is set when fn
returns whether fn succeeded or failed.  For a failing fn (duration 5,
started from now = 0, lastSendAt = 0, gap 120, so the fn returns at instant
125) the pump leaves lastSendAt at 0, not 125. -/
theorem lastSendAt_not_set_on_failed_fn :
    ¬ ((pumpStep 120 ⟨0, 0⟩ ⟨0, 0, 5, false, 1⟩).1.lastSendAt
        = fnStartTime 120 ⟨0, 0⟩ + (5 : Nat)) := by
  decide

lemma mem_runQueuedInsert {item y : SendItem} :
    ∀ {q : List SendItem}, y ∈ runQueuedInsert item q → y = item ∨ y ∈ q := by
  intro q
  induction q with
  | nil => simp [runQueuedInsert]
  | cons x xs ih =>
    simp only [runQueuedInsert]
    split
    · intro hy
      rcases List.mem_cons.mp hy with hy | hy
      · exact Or.inl hy
      · exact Or.inr hy
    · intro hy
      rcases List.mem_cons.mp hy with hy | hy
      · exact Or.inr (by simp [hy])
      · rcases ih hy with hy | hy
        · exact Or.inl hy
        · exact Or.inr (List.mem_cons_of_mem x hy)

lemma runQueuedInsert_ordered (item : SendItem) :
    ∀ (q : List SendItem), queueOrdered q →
      (∀ x ∈ q, x.enqueuedAt ≤ item.enqueuedAt) →
      queueOrdered (runQueuedInsert item q) := by
  intro q
  induction q with
  | nil =>
    intro _ _
    simp [runQueuedInsert, queueOrdered]
  | cons x xs ih =>
    intro hq henq
    have hq' : queueOrdered xs := (List.pairwise_cons.mp hq).2
    have hx : ∀ z ∈ xs, queueLe x z := (List.pairwise_cons.mp hq).1
    simp only [runQueuedInsert]
    split
    · rename_i hlt
      refine List.pairwise_cons.mpr ⟨?_, hq⟩
      intro z hz
      rcases List.mem_cons.mp hz with hz | hz
      · subst hz; exact Or.inl hlt
      · have := hx z hz
        rcases this with hzl | hze
        · exact Or.inl (lt_trans hzl hlt)
        · exact Or.inl (hze.1 ▸ hlt)
    · rename_i hnlt
      have hle : item.priority ≤ x.priority := le_of_not_lt hnlt
      refine List.pairwise_cons.mpr ⟨?_, ?_⟩
      · intro z hz
        rcases mem_runQueuedInsert hz with hz | hz
        · subst hz
          rcases lt_or_eq_of_le hle with hlt | heq
          · exact Or.inl hlt
          · exact Or.inr ⟨heq, henq x (List.mem_cons_self x xs)⟩
        · exact hx z hz
      · exact ih hq' (fun z hz => henq z (List.mem_cons_of_mem x hz))

/-- C8 (confirmed): runQueued keeps ctx.__queue ordered by priority
descending and, within equal priority, by enqueue time ascending (the new
item is spliced before the first strictly-lower-priority item, hence after
every item of equal or higher priority, which is stable insertion); and in
particular inserting a priority-0 item and then a priority-10 item leaves
the priority-10 item at the head, so the pumper (which always shifts the
head) writes it first. -/
theorem runQueued_priority_stable_order (item : SendItem) (q : List SendItem)
    (hq : queueOrdered q) (henq : ∀ x ∈ q, x.enqueuedAt ≤ item.enqueuedAt) :
    queueOrdered (runQueuedInsert item q) ∧
    runQueuedInsert (⟨10, 1, 0, true, 2⟩ : SendItem)
        (runQueuedInsert (⟨0, 0, 0, true, 1⟩ : SendItem) [])
      = [⟨10, 1, 0, true, 2⟩, ⟨0, 0, 0, true, 1⟩] := by
  refine ⟨runQueuedInsert_ordered item q hq henq, by decide⟩

theorem runQueued_priority_stable_order_witness :
    queueOrdered [(⟨10, 0, 0, true, 7⟩ : SendItem), ⟨0, 0, 0, true, 8⟩] ∧
    (∀ x ∈ [(⟨10, 0, 0, true, 7⟩ : SendItem), ⟨0, 0, 0, true, 8⟩],
      x.enqueuedAt ≤ (⟨5, 1, 0, true, 9⟩ : SendItem).enqueuedAt) ∧
    (queueOrdered (runQueuedInsert ⟨5, 1, 0, true, 9⟩
        [(⟨10, 0, 0, true, 7⟩ : SendItem), ⟨0, 0, 0, true, 8⟩]) ∧
      runQueuedInsert (⟨10, 1, 0, true, 2⟩ : SendItem)
          (runQueuedInsert (⟨0, 0, 0, true, 1⟩ : SendItem) [])
        = [⟨10, 1, 0, true, 2⟩, ⟨0, 0, 0, true, 1⟩]) :=
  ⟨by decide, of_decide_eq_true rfl,
    runQueued_priority_stable_order ⟨5, 1, 0, true, 9⟩
      [⟨10, 0, 0, true, 7⟩, ⟨0, 0, 0, true, 8⟩] (by decide) (of_decide_eq_true rfl)⟩

/-! ### Shared context (src/src/core/context.js)

Switch addresses are (m, s, b) triples; the JS code keys maps with the
strings built injectively from the components, so the triple itself is used
as the key here.  Load addresses are (master, enclosure, modulePos, load).
Awaiters are identified by numeric ids; resolutions and rejections are
recorded in logs so that broadcast behaviour can be stated. -/

abbrev SA : Type := Nat × Nat × Nat

abbrev LA : Type := Nat × Nat × Nat × Nat

/-- Record stored in ctx.VGS_CACHE.  The route writes value null when the
reply could not be parsed, hence Option. -/
structure VgsRec where
  ts : Nat
  value : Option Nat
  raw : String
  bytes : Nat
  source : Option String
deriving DecidableEq, Repr

/-- Record stored in ctx.STATE by the push pipeline. -/
structure PushRec where
  value : Nat
  ts : Nat
deriving DecidableEq, Repr

/-- Record stored in ctx.LOAD_CACHE.  The fade is kept as the matched
numeric token (the JS stores Number(token)). -/
structure LoadRec where
  ts : Nat
  level : Option Int
  fadeTok : Option String
  raw : String
  bytes : Nat
  source : Option String
deriving DecidableEq, Repr

/-- Map.get on the association lists standing in for JS Maps. -/
def mapGet {α β : Type} [DecidableEq α] (l : List (α × β)) (k : α) : Option β :=
  match l with
  | [] => none
  | p :: rest => if p.1 = k then some p.2 else mapGet rest k

/-- Removal of every pair whose key equals k (the filter underlying
Map.set and Map.delete). -/
def keyFilter {α β : Type} [DecidableEq α] (k : α) (l : List (α × β)) : List (α × β) :=
  match l with
  | [] => []
  | p :: rest => if p.1 = k then keyFilter k rest else p :: keyFilter k rest

/-- Map.set (overwrite-or-insert). -/
def mapSet {α β : Type} [DecidableEq α] (l : List (α × β)) (k : α) (v : β) : List (α × β) :=
  (k, v) :: keyFilter k l

/-- Map.delete. -/
def mapDelete {α β : Type} [DecidableEq α] (l : List (α × β)) (k : α) : List (α × β) :=
  keyFilter k l

/-- Removal of the first occurrence (indexOf + splice(idx, 1)). -/
def eraseFirst {α : Type} [DecidableEq α] : List α → α → List α
  | [], _ => []
  | x :: xs, k => if x = k then xs else x :: eraseFirst xs k

/-- The process-wide mutable context of context.js, restricted to the
fields the verified claims touch, plus logs of awaiter resolutions
(id, delivered line), awaiter rejections (id, reason), queue submissions
(labels) and completed on-wire writes (labels). -/
structure Ctx where
  tcpConnected : Bool
  STATE : List (SA × PushRec)
  VGS_CACHE : List (SA × VgsRec)
  VGS_INFLIGHT : List SA
  AWAITERS : List (SA × List Nat)
  VGS_WAIT_ORDER : List SA
  LOAD_CACHE : List (LA × LoadRec)
  LOAD_AWAITERS : List (LA × List Nat)
  PENDING : List (SA × Nat)
  WHITELIST : List SA
  AWAITERS_MAX_PER_KEY : Nat
  LOAD_AWAITERS_MAX_PER_KEY : Nat
  resolved : List (Nat × String)
  rejected : List (Nat × String)
  queueLabels : List String
  writes : List String
deriving DecidableEq, Repr

/-- DEBOUNCE_MS from context.js. -/
def DEBOUNCE_MS : Nat := 250

/-! ### Line tokenisation (shallow model of the regular expressions in
src/src/core/parsing.js)

The handler regexes all have the shape
  (?:^|\s)TOKEN\s+(\d+)\s+...(\-?\d+)\b
so on a whitespace-separated line they match exactly at token boundaries;
the line is modelled by its whitespace-split tokens.  Exotic tokens (such
as digits immediately followed by punctuation, where the trailing \b can
split a token) are outside the scope of this model. -/

def trimmedChars (line : String) : List Char :=
  ((line.data.dropWhile Char.isWhitespace).reverse.dropWhile Char.isWhitespace).reverse

/-- The bare 0|1 test of processIncomingLineForBare01:
String(rawLine).trim().match(/^([01])$/). -/
def bareValue? (line : String) : Option Nat :=
  match trimmedChars line with
  | ['0'] => some 0
  | ['1'] => some 1
  | _ => none

def splitWsAux : List Char → List Char → List (List Char)
  | [], acc => if acc.isEmpty then [] else [acc.reverse]
  | c :: cs, acc =>
    if c.isWhitespace then
      if acc.isEmpty then splitWsAux cs [] else acc.reverse :: splitWsAux cs []
    else splitWsAux cs (c :: acc)

/-- Whitespace-split tokens of a line. -/
def tokensOf (line : String) : List String :=
  (splitWsAux line.data []).map String.mk

def digitsVal (cs : List Char) : Nat :=
  cs.foldl (fun n c => n * 10 + (c.toNat - 48)) 0

/-- Token matching \d+ (a regex group of the reply handlers). -/
def natTokVal? (t : String) : Option Nat :=
  if !t.data.isEmpty && t.data.all Char.isDigit then some (digitsVal t.data) else none

/-- Token matching -?\d+ (the value group of the reply handlers). -/
def intTokVal? (t : String) : Option Int :=
  match t.data with
  | '-' :: rest =>
    if !rest.isEmpty && rest.all Char.isDigit then some (-(digitsVal rest : Int)) else none
  | cs =>
    if !cs.isEmpty && cs.all Char.isDigit then some ((digitsVal cs : Int)) else none

/-- Leading token of a reply: TOKEN or, when the regex carries #?, also
TOKEN#.  The VGS handler regex of parsing.js line 38 has no #?; the RGS,
RLB and RGB handler regexes do. -/
def tokMatches (base : String) (allowHash : Bool) (t : String) : Bool :=
  t == base || (allowHash && t == base ++ "#")

/-- All matches of the switch-reply shape TOKEN m s b v on a token list,
in scan order, continuing after each match (regex exec with the g flag). -/
def switchScanFuel (base : String) (allowHash : Bool) : Nat → List String → List (Nat × Nat × Nat × Int)
  | 0, _ => []
  | n + 1, t :: rest@(a :: b :: c :: d :: rest2) =>
    if tokMatches base allowHash t then
      match natTokVal? a, natTokVal? b, natTokVal? c, intTokVal? d with
      | some M, some S, some B, some V => (M, S, B, V) :: switchScanFuel base allowHash n rest2
      | _, _, _, _ => switchScanFuel base allowHash n rest
    else switchScanFuel base allowHash n rest
  | _ + 1, _ => []

/-- The scan always consumes at least one token per step, so fuel equal to
the token count makes switchScanFuel total over the list. -/
def switchScan (base : String) (allowHash : Bool) (l : List String) : List (Nat × Nat × Nat × Int) :=
  switchScanFuel base allowHash l.length l

/-- All matches of the push-event shape SW m s b v with v in {0,1}
(parsing.js line 29). -/
def swScanFuel : Nat → List String → List (Nat × Nat × Nat × Nat)
  | 0, _ => []
  | n + 1, t :: rest@(a :: b :: c :: d :: rest2) =>
    if t == "SW" then
      match natTokVal? a, natTokVal? b, natTokVal? c with
      | some M, some S, some B =>
        if d == "0" then (M, S, B, 0) :: swScanFuel n rest2
        else if d == "1" then (M, S, B, 1) :: swScanFuel n rest2
        else swScanFuel n rest
      | _, _, _ => swScanFuel n rest
    else swScanFuel n rest
  | _ + 1, _ => []

def swScan (l : List String) : List (Nat × Nat × Nat × Nat) :=
  swScanFuel l.length l

structure RgbMatch where
  master : Nat
  enclosure : Nat
  modulePos : Nat
  load : Nat
  level : Int
  raw : String
deriving DecidableEq, Repr

/-- All matches of RGB[#] m e mod load level (parsing.js line 120); raw is
the matched text (reconstructed with single spaces). -/
def rgbScanFuel : Nat → List String → List RgbMatch
  | 0, _ => []
  | n + 1, t :: rest@(a :: b :: c :: d :: e :: rest2) =>
    if tokMatches "RGB" true t then
      match natTokVal? a, natTokVal? b, natTokVal? c, natTokVal? d, intTokVal? e with
      | some M, some E, some MOD, some L, some LV =>
        ⟨M, E, MOD, L, LV, String.intercalate " " [t, a, b, c, d, e]⟩ :: rgbScanFuel n rest2
      | _, _, _, _, _ => rgbScanFuel n rest
    else rgbScanFuel n rest
  | _ + 1, _ => []

def rgbScan (l : List String) : List RgbMatch :=
  rgbScanFuel l.length l

def floatTokBody : List Char → Bool
  | [] => true
  | '.' :: rest => !rest.isEmpty && rest.all Char.isDigit
  | c :: rest => c.isDigit && floatTokBody rest

/-- Token matching the optional fade group [-+]?\d*(?:\.\d+)? of the RLB
handler (parsing.js line 86). -/
def floatTok (t : String) : Bool :=
  match t.data with
  | '-' :: rest => floatTokBody rest
  | '+' :: rest => floatTokBody rest
  | cs => floatTokBody cs

structure RlbMatch where
  master : Nat
  enclosure : Nat
  modulePos : Nat
  load : Nat
  level : Int
  fadeTok : Option String
  raw : String
deriving DecidableEq, Repr

/-- All matches of RLB[#] m e mod load level [fade] (parsing.js line 86). -/
def rlbScanFuel : Nat → List String → List RlbMatch
  | 0, _ => []
  | n + 1, t :: rest@(a :: b :: c :: d :: e :: restf@(f :: rest3)) =>
    if tokMatches "RLB" true t then
      match natTokVal? a, natTokVal? b, natTokVal? c, natTokVal? d, intTokVal? e with
      | some M, some E, some MOD, some L, some LV =>
        if floatTok f then
          ⟨M, E, MOD, L, LV, some f, String.intercalate " " [t, a, b, c, d, e, f]⟩
            :: rlbScanFuel n rest3
        else
          ⟨M, E, MOD, L, LV, none, String.intercalate " " [t, a, b, c, d, e]⟩
            :: rlbScanFuel n restf
      | _, _, _, _, _ => rlbScanFuel n rest
    else rlbScanFuel n rest
  | _ + 1, [t, a, b, c, d, e] =>
    if tokMatches "RLB" true t then
      match natTokVal? a, natTokVal? b, natTokVal? c, natTokVal? d, intTokVal? e with
      | some M, some E, some MOD, some L, some LV =>
        [⟨M, E, MOD, L, LV, none, String.intercalate " " [t, a, b, c, d, e]⟩]
      | _, _, _, _, _ => []
    else []
  | _ + 1, _ => []

def rlbScan (l : List String) : List RlbMatch :=
  rlbScanFuel l.length l

/-! ### Line handlers (src/src/core/parsing.js) -/

/-- Broadcast resolution used by every reply handler: if the awaiter list
for the key exists and is non-empty, delete the key and resolve every
entry with msg. -/
def resolveSwitchAwaiters (ctx : Ctx) (k : SA) (msg : String) : Ctx :=
  match mapGet ctx.AWAITERS k with
  | some l =>
    if l.isEmpty then ctx
    else { ctx with AWAITERS := mapDelete ctx.AWAITERS k,
                    resolved := ctx.resolved ++ l.map (fun i => (i, msg)) }
  | none => ctx

def resolveLoadAwaiters (ctx : Ctx) (k : LA) (msg : String) : Ctx :=
  match mapGet ctx.LOAD_AWAITERS k with
  | some l =>
    if l.isEmpty then ctx
    else { ctx with LOAD_AWAITERS := mapDelete ctx.LOAD_AWAITERS k,
                    resolved := ctx.resolved ++ l.map (fun i => (i, msg)) }
  | none => ctx

/-- The cache record written by the VGS and RGS reply handlers:
ts Date.now(), value (V ? 1 : 0), raw String(V), bytes rawLine.length. -/
def vgsEntry (now : Nat) (rawLine : String) (V : Int) : VgsRec :=
  ⟨now, some (if V ≠ 0 then 1 else 0), toString V, rawLine.length, none⟩

def applySwitchReplyVGS (now : Nat) (rawLine : String) (ctx : Ctx)
    (mt : Nat × Nat × Nat × Int) : Ctx :=
  let k : SA := (mt.1, mt.2.1, mt.2.2.1)
  let ctx1 := { ctx with VGS_CACHE := mapSet ctx.VGS_CACHE k (vgsEntry now rawLine mt.2.2.2) }
  resolveSwitchAwaiters ctx1 k rawLine

/-- parsing.js lines 37-50: the VGS reply handler.  Its regex is
(?:^|\s)VGS\s+... — only the bare VGS token, no #. -/
def processIncomingLineForVGS (now : Nat) (rawLine : String) (ctx : Ctx) : Ctx :=
  (switchScan "VGS" false (tokensOf rawLine)).foldl (applySwitchReplyVGS now rawLine) ctx

def applySwitchReplyRGS (now : Nat) (rawLine : String) (ctx : Ctx)
    (mt : Nat × Nat × Nat × Int) : Ctx :=
  let k : SA := (mt.1, mt.2.1, mt.2.2.1)
  let ctx1 := { ctx with VGS_CACHE := mapSet ctx.VGS_CACHE k (vgsEntry now rawLine mt.2.2.2) }
  let ctx2 := resolveSwitchAwaiters ctx1 k rawLine
  { ctx2 with VGS_WAIT_ORDER := eraseFirst ctx2.VGS_WAIT_ORDER k }

/-- parsing.js lines 66-83: the RGS reply handler (regex RGS#?), which also
removes the key from the bare-FIFO. -/
def processIncomingLineForRGS (now : Nat) (rawLine : String) (ctx : Ctx) : Ctx :=
  (switchScan "RGS" true (tokensOf rawLine)).foldl (applySwitchReplyRGS now rawLine) ctx

/-- parsing.js lines 52-64: bare 0|1 attribution via the FIFO. -/
def processIncomingLineForBare01 (now : Nat) (rawLine : String) (ctx : Ctx) : Ctx :=
  match bareValue? rawLine with
  | none => ctx
  | some v =>
    match ctx.VGS_WAIT_ORDER with
    | [] => ctx
    | k :: restFifo =>
      let entry : VgsRec := ⟨now, some v, toString v, rawLine.length, none⟩
      let ctx1 := { ctx with VGS_WAIT_ORDER := restFifo,
                             VGS_CACHE := mapSet ctx.VGS_CACHE k entry }
      resolveSwitchAwaiters ctx1 k (toString v)

def applyLoadReplyRLB (now : Nat) (ctx : Ctx) (mt : RlbMatch) : Ctx :=
  let k : LA := (mt.master, mt.enclosure, mt.modulePos, mt.load)
  let entry : LoadRec := ⟨now, some mt.level, mt.fadeTok, mt.raw, mt.raw.utf8ByteSize, some "RLB"⟩
  let ctx1 := { ctx with LOAD_CACHE := mapSet ctx.LOAD_CACHE k entry }
  resolveLoadAwaiters ctx1 k mt.raw

/-- parsing.js lines 85-117: the RLB reply handler. -/
def processIncomingLineForRLB (now : Nat) (rawLine : String) (ctx : Ctx) : Ctx :=
  (rlbScan (tokensOf rawLine)).foldl (applyLoadReplyRLB now) ctx

def applyLoadReplyRGB (now : Nat) (ctx : Ctx) (mt : RgbMatch) : Ctx :=
  let k : LA := (mt.master, mt.enclosure, mt.modulePos, mt.load)
  let entry : LoadRec := ⟨now, some mt.level, none, mt.raw, mt.raw.utf8ByteSize, some "RGB"⟩
  let ctx1 := { ctx with LOAD_CACHE := mapSet ctx.LOAD_CACHE k entry }
  resolveLoadAwaiters ctx1 k mt.raw

/-- parsing.js lines 119-150: the RGB reply handler. -/
def processIncomingLineForRGB (now : Nat) (rawLine : String) (ctx : Ctx) : Ctx :=
  (rgbScan (tokensOf rawLine)).foldl (applyLoadReplyRGB now) ctx

/-- parsing.js lines 205-226: the push-pipeline entry.  A non-whitelisted
event is dropped; otherwise any pending confirm timer for the key is
cancelled and replaced by a timer with delay 60 when v = 0 and DEBOUNCE_MS
when v = 1 (ctx.PENDING stores the armed delay). -/
def onSWEvent (ctx : Ctx) (m s b v : Nat) : Ctx :=
  if (m, s, b) ∈ ctx.WHITELIST then
    let delay := if v = 0 then 60 else DEBOUNCE_MS
    { ctx with PENDING := mapSet ctx.PENDING (m, s, b) delay }
  else ctx

/-- parsing.js lines 28-35: the SW handler feeds every match to onSWEvent. -/
def processIncomingLineForSW (rawLine : String) (ctx : Ctx) : Ctx :=
  (swScan (tokensOf rawLine)).foldl
    (fun c mt => onSWEvent c mt.1 mt.2.1 mt.2.2.1 mt.2.2.2) ctx

/-- parsing.js lines 17-24: the per-line dispatch order of
processIncomingText. -/
def processIncomingLine (now : Nat) (line : String) (ctx : Ctx) : Ctx :=
  processIncomingLineForBare01 now line
    (processIncomingLineForRGB now line
      (processIncomingLineForRLB now line
        (processIncomingLineForRGS now line
          (processIncomingLineForVGS now line
            (processIncomingLineForSW line ctx)))))

/-! ### Awaiter registration (src/src/routes/vgs_helpers.js lines 7-22 and
src/unnamed/part_006 lines 29-53) -/

/-- awaitVGS: reject with the saturation error when the per-key list
already holds AWAITERS_MAX_PER_KEY entries (leaving the registry
untouched), otherwise push a new awaiter at the end of the list.  The Bool
is true when registration succeeded. -/
def awaitVGS (ctx : Ctx) (m s b : Nat) (aid : Nat) : Ctx × Bool :=
  let k : SA := (m, s, b)
  let list := (mapGet ctx.AWAITERS k).getD []
  if ctx.AWAITERS_MAX_PER_KEY ≤ list.length then (ctx, false)
  else ({ ctx with AWAITERS := mapSet ctx.AWAITERS k (list ++ [aid]) }, true)

/-- awaitLoad: the same fast-fail registration pattern for load keys with
LOAD_AWAITERS_MAX_PER_KEY. -/
def awaitLoad (ctx : Ctx) (master enclosure modulePos load : Nat) (aid : Nat) : Ctx × Bool :=
  let k : LA := (master, enclosure, modulePos, load)
  let list := (mapGet ctx.LOAD_AWAITERS k).getD []
  if ctx.LOAD_AWAITERS_MAX_PER_KEY ≤ list.length then (ctx, false)
  else ({ ctx with LOAD_AWAITERS := mapSet ctx.LOAD_AWAITERS k (list ++ [aid]) }, true)

/-- The queued fn built by sendVGSWithAwaiter (vgs_helpers.js lines 26-40):
register the awaiter, push the key onto the bare-FIFO, then perform the
on-wire write of cmd. -/
def sendVGSWithAwaiterTask (ctx : Ctx) (m s b : Nat) (aid : Nat) (cmd : String) : Ctx × Bool :=
  let k : SA := (m, s, b)
  let r := awaitVGS ctx m s b aid
  ({ r.1 with VGS_WAIT_ORDER := r.1.VGS_WAIT_ORDER ++ [k],
              writes := r.1.writes ++ [cmd] }, r.2)

/-! ### GET /status/vgs (src/src/routes/vgs.js lines 53-135) -/

inductive VgsAnswer where
  | notConnected
  | invalidInput
  | fromPushState (value : Nat) (ageMs : Nat)
  | fromCache (entry : VgsRec) (ageMs : Nat)
  | fromInflight
  | newRequest
deriving DecidableEq, Repr

/-- Step 4 of the route: no fresh push state, no fresh cache — either join
the in-flight request for the key, or start a new one (which records the
key in VGS_INFLIGHT and submits exactly one queue item labelled cmd). -/
def statusVgsMissStep (ctx : Ctx) (k : SA) (cmd : String) : Ctx × VgsAnswer :=
  if k ∈ ctx.VGS_INFLIGHT then (ctx, VgsAnswer.fromInflight)
  else ({ ctx with VGS_INFLIGHT := ctx.VGS_INFLIGHT ++ [k],
                   queueLabels := ctx.queueLabels ++ [cmd] }, VgsAnswer.newRequest)

/-- Steps 2-4: the VGS_CACHE freshness gate (now - ts < cacheMs). -/
def statusVgsCacheStep (ctx : Ctx) (k : SA) (cmd : String) (now cacheMs : Nat) : Ctx × VgsAnswer :=
  match mapGet ctx.VGS_CACHE k with
  | some cached =>
    if now - cached.ts < cacheMs then (ctx, VgsAnswer.fromCache cached (now - cached.ts))
    else statusVgsMissStep ctx k cmd
  | none => statusVgsMissStep ctx k cmd

/-- The command string built by the route: VGS# m s b. -/
def vgsCmd (m s b : Nat) : String :=
  "VGS# " ++ toString m ++ " " ++ toString s ++ " " ++ toString b

/-- The full source-order decision of GET /status/vgs: connectivity and
input checks, then push state (fresh within pushFreshMs), then cache, then
in-flight coalescing, then a new request. -/
def statusVgs (ctx : Ctx) (validAddr : Bool) (m s b : Nat)
    (now pushFreshMs cacheMs : Nat) : Ctx × VgsAnswer :=
  if !ctx.tcpConnected then (ctx, VgsAnswer.notConnected)
  else if !validAddr then (ctx, VgsAnswer.invalidInput)
  else
    let k : SA := (m, s, b)
    match mapGet ctx.STATE k with
    | some st =>
      if now - st.ts < pushFreshMs then
        (ctx, VgsAnswer.fromPushState st.value (now - st.ts))
      else statusVgsCacheStep ctx k (vgsCmd m s b) now cacheMs
    | none => statusVgsCacheStep ctx k (vgsCmd m s b) now cacheMs

/-- The push-state freshness test of the route (step 1). -/
def pushFreshAt (ctx : Ctx) (k : SA) (now pushFreshMs : Nat) : Bool :=
  match mapGet ctx.STATE k with
  | some st => decide (now - st.ts < pushFreshMs)
  | none => false

/-- The cache freshness test of the route (step 2). -/
def cacheFreshAt (ctx : Ctx) (k : SA) (now cacheMs : Nat) : Bool :=
  match mapGet ctx.VGS_CACHE k with
  | some r => decide (now - r.ts < cacheMs)
  | none => false

/-! ### Session teardown (src/unnamed/part_001 lines 127-149, tcp.js) -/

/-- ensureDisconnected: destroy the socket, cancel every pending
push-confirm timer, reject every switch awaiter with disconnected and
clear the bare-FIFO.  ctx.LOAD_AWAITERS is not visited by this function in
the source. -/
def ensureDisconnected (ctx : Ctx) : Ctx :=
  { ctx with
    tcpConnected := false,
    PENDING := [],
    AWAITERS := [],
    rejected := ctx.rejected ++
      (ctx.AWAITERS.map (fun p => p.2.map (fun i => (i, "disconnected")))).flatten,
    VGS_WAIT_ORDER := [] }

/-! ### Push state (src/unnamed/part_000, state.js) -/

/-- The VGS_CACHE record mirrored by setState on a confirmed push:
value, raw String(value), bytes 1, source push-state. -/
def pushMirrorEntry (value now : Nat) : VgsRec :=
  ⟨now, some value, toString value, 1, some "push-state"⟩

/-- setState: always rewrite ctx.STATE with the confirmed value and the
current time; mirror into VGS_CACHE only when there was no previous entry
or the value changed. -/
def setState (ctx : Ctx) (m s b : Nat) (value : Nat) (now : Nat) : Ctx :=
  let k : SA := (m, s, b)
  match mapGet ctx.STATE k with
  | some prev =>
    if prev.value ≠ value then
      { ctx with STATE := mapSet ctx.STATE k ⟨value, now⟩,
                 VGS_CACHE := mapSet ctx.VGS_CACHE k (pushMirrorEntry value now) }
    else
      { ctx with STATE := mapSet ctx.STATE k ⟨value, now⟩ }
  | none =>
      { ctx with STATE := mapSet ctx.STATE k ⟨value, now⟩,
                 VGS_CACHE := mapSet ctx.VGS_CACHE k (pushMirrorEntry value now) }

/-- The confirm timer callback armed by onSWEvent (parsing.js lines
217-224): drop the PENDING entry, then run the confirm read; on success
(some value) call setState, on failure (none) leave all state untouched. -/
def confirmTimerFire (ctx : Ctx) (m s b : Nat) (confirmResult : Option Nat) (now : Nat) : Ctx :=
  let ctx1 := { ctx with PENDING := mapDelete ctx.PENDING (m, s, b) }
  match confirmResult with
  | some val => setState ctx1 m s b val now
  | none => ctx1

/-! ### Error handling of the HTTP routes -/

/-- Outcome of the catch handler of GET /status/vgs (vgs.js lines
137-174): HTTP status, whether X-Status-Fallback: stale-cache was set,
whether X-Status-Error was set, and the record served if any. -/
structure VgsErrorResponse where
  status : Nat
  fallbackStale : Bool
  errorHeader : Bool
  served : Option VgsRec
deriving DecidableEq, Repr

def vgsCatchNoCache (format : String) : VgsErrorResponse :=
  if format == "bool" then ⟨200, false, true, none⟩ else ⟨500, false, true, none⟩

/-- The catch handler of GET /status/vgs: any cache entry for the key,
even stale, is served with 200 and the stale-cache header; otherwise 200
false for format=bool and 500 for every other format, with X-Status-Error
set.  It never produces 504. -/
def vgsCatch (ctx : Ctx) (k : Option SA) (format : String) : VgsErrorResponse :=
  match k with
  | some key =>
    match mapGet ctx.VGS_CACHE key with
    | some stale => ⟨200, true, false, some stale⟩
    | none => vgsCatchNoCache format
  | none => vgsCatchNoCache format

def lowerStr (s : String) : String := String.mk (s.data.map Char.toLower)

def listStartsWith : List Char → List Char → Bool
  | [], _ => true
  | _ :: _, [] => false
  | c :: cs, d :: ds => c == d && listStartsWith cs ds

def listHasSub (pat : List Char) : List Char → Bool
  | [] => pat.isEmpty
  | d :: ds => listStartsWith pat (d :: ds) || listHasSub pat ds

/-- String.prototype.includes on the character lists. -/
def containsSub (s pat : String) : Bool := listHasSub pat.data s.data

/-- The catch handler shared by POST /dim and GET /dim (dim.js lines
134-146 and 212-224): 504 when the error message contains timeout, 429
when it contains awaiters limit, 500 otherwise.  It consults no cache and
serves no stale record. -/
def dimCatchStatus (errMsg : String) : Nat :=
  if containsSub (lowerStr errMsg) "timeout" then 504
  else if containsSub (lowerStr errMsg) "awaiters limit" then 429
  else 500

/-! ### Association-list lemmas -/

lemma mapGet_mapSet_self {α β : Type} [DecidableEq α] (l : List (α × β)) (k : α) (v : β) :
    mapGet (mapSet l k v) k = some v := by
  simp [mapGet, mapSet]

lemma mapGet_keyFilter_ne {α β : Type} [DecidableEq α] (l : List (α × β)) {k k' : α}
    (h : k' ≠ k) : mapGet (keyFilter k l) k' = mapGet l k' := by
  induction l with
  | nil => rfl
  | cons p rest ih =>
    by_cases hp : p.1 = k
    · have hpq : ¬ p.1 = k' := fun hc => h (hc ▸ hp ▸ rfl)
      rw [keyFilter, if_pos hp, ih]
      conv_rhs => rw [mapGet]
      rw [if_neg hpq]
    · rw [keyFilter, if_neg hp]
      by_cases hq : p.1 = k'
      · rw [mapGet, if_pos hq]
        conv_rhs => rw [mapGet]
        rw [if_pos hq]
      · rw [mapGet, if_neg hq, ih]
        conv_rhs => rw [mapGet]
        rw [if_neg hq]

lemma mapGet_mapSet_ne {α β : Type} [DecidableEq α] (l : List (α × β)) {k k' : α} (v : β)
    (h : k' ≠ k) : mapGet (mapSet l k v) k' = mapGet l k' := by
  have hne : ¬ k = k' := fun hc => h hc.symm
  rw [mapSet, mapGet, if_neg hne, mapGet_keyFilter_ne l h]

lemma mapGet_mapDelete_self {α β : Type} [DecidableEq α] (l : List (α × β)) (k : α) :
    mapGet (mapDelete l k) k = none := by
  rw [mapDelete]
  induction l with
  | nil => rfl
  | cons p rest ih =>
    by_cases hp : p.1 = k
    · rw [keyFilter, if_pos hp]; exact ih
    · rw [keyFilter, if_neg hp, mapGet, if_neg hp]; exact ih

lemma mapGet_mapDelete_ne {α β : Type} [DecidableEq α] (l : List (α × β)) {k k' : α}
    (h : k' ≠ k) : mapGet (mapDelete l k) k' = mapGet l k' :=
  mapGet_keyFilter_ne l h

/-! ### Behaviour of the awaiter broadcast -/

lemma resolveSwitchAwaiters_fields (ctx : Ctx) (k : SA) (msg : String) :
    (resolveSwitchAwaiters ctx k msg).VGS_CACHE = ctx.VGS_CACHE ∧
    (resolveSwitchAwaiters ctx k msg).VGS_WAIT_ORDER = ctx.VGS_WAIT_ORDER ∧
    (resolveSwitchAwaiters ctx k msg).STATE = ctx.STATE ∧
    (resolveSwitchAwaiters ctx k msg).PENDING = ctx.PENDING ∧
    (resolveSwitchAwaiters ctx k msg).LOAD_AWAITERS = ctx.LOAD_AWAITERS ∧
    (resolveSwitchAwaiters ctx k msg).writes = ctx.writes ∧
    (resolveSwitchAwaiters ctx k msg).resolved
      = ctx.resolved ++ ((mapGet ctx.AWAITERS k).getD []).map (fun i => (i, msg)) := by
  unfold resolveSwitchAwaiters
  rcases h : mapGet ctx.AWAITERS k with _ | l
  · simp
  · by_cases he : l.isEmpty
    · have : l = [] := by simpa [List.isEmpty_iff] using he
      subst this
      simp [he]
    · simp [he]

lemma resolveSwitchAwaiters_get_ne (ctx : Ctx) (k : SA) (msg : String)
    {k2 : SA} (h : k2 ≠ k) :
    mapGet (resolveSwitchAwaiters ctx k msg).AWAITERS k2 = mapGet ctx.AWAITERS k2 := by
  unfold resolveSwitchAwaiters
  rcases hg : mapGet ctx.AWAITERS k with _ | l
  · simp
  · by_cases he : l.isEmpty
    · simp [he]
    · simp [he, mapGet_mapDelete_ne _ h]

lemma resolveSwitchAwaiters_get_self (ctx : Ctx) (k : SA) (msg : String)
    (l : List Nat) (hg : mapGet ctx.AWAITERS k = some l) (hne : l ≠ []) :
    mapGet (resolveSwitchAwaiters ctx k msg).AWAITERS k = none := by
  unfold resolveSwitchAwaiters
  rw [hg]
  have he : l.isEmpty = false := by
    simpa [List.isEmpty_iff] using hne
  simp [he, mapGet_mapDelete_self]

/-- Shared base context for the concrete scenarios below: connected, all
maps empty, both awaiter caps at their default 200. -/
def ctx0 : Ctx := ⟨true, [], [], [], [], [], [], [], [], [], 200, 200, [], [], [], []⟩

/-! ### Evaluation lemmas for the reply scanners -/

lemma switchScan_single (base : String) (allowHash : Bool) (t tM tS tB tV : String)
    (M S B : Nat) (V : Int)
    (ht : tokMatches base allowHash t = true)
    (hM : natTokVal? tM = some M) (hS : natTokVal? tS = some S)
    (hB : natTokVal? tB = some B) (hV : intTokVal? tV = some V) :
    switchScan base allowHash [t, tM, tS, tB, tV] = [(M, S, B, V)] := by
  simp [switchScan, switchScanFuel, ht, hM, hS, hB, hV]

lemma switchScan_headMiss (base : String) (allowHash : Bool) (t tM tS tB tV : String)
    (ht : tokMatches base allowHash t = false) :
    switchScan base allowHash [t, tM, tS, tB, tV] = [] := by
  simp [switchScan, switchScanFuel, ht]

lemma applySwitchReplyVGS_spec (now : Nat) (rawLine : String) (ctx : Ctx)
    (M S B : Nat) (V : Int) :
    (applySwitchReplyVGS now rawLine ctx (M, S, B, V)).VGS_CACHE
      = mapSet ctx.VGS_CACHE (M, S, B) (vgsEntry now rawLine V) ∧
    (applySwitchReplyVGS now rawLine ctx (M, S, B, V)).resolved
      = ctx.resolved ++ ((mapGet ctx.AWAITERS (M, S, B)).getD []).map (fun i => (i, rawLine)) ∧
    (∀ ids, mapGet ctx.AWAITERS (M, S, B) = some ids → ids ≠ [] →
      mapGet (applySwitchReplyVGS now rawLine ctx (M, S, B, V)).AWAITERS (M, S, B) = none) := by
  refine ⟨?_, ?_, ?_⟩
  · simpa [applySwitchReplyVGS] using
      (resolveSwitchAwaiters_fields _ (M, S, B) rawLine).1
  · simpa [applySwitchReplyVGS] using
      (resolveSwitchAwaiters_fields _ (M, S, B) rawLine).2.2.2.2.2.2
  · intro ids hg hne
    simp only [applySwitchReplyVGS]
    exact resolveSwitchAwaiters_get_self _ (M, S, B) rawLine ids (by simpa using hg) hne

lemma applySwitchReplyRGS_cache (now : Nat) (rawLine : String) (ctx : Ctx)
    (M S B : Nat) (V : Int) :
    mapGet (applySwitchReplyRGS now rawLine ctx (M, S, B, V)).VGS_CACHE (M, S, B)
      = some (vgsEntry now rawLine V) := by
  have h := (resolveSwitchAwaiters_fields
      { ctx with VGS_CACHE := mapSet ctx.VGS_CACHE (M, S, B) (vgsEntry now rawLine V) }
      (M, S, B) rawLine).1
  simp only [applySwitchReplyRGS]
  simpa [h] using mapGet_mapSet_self ctx.VGS_CACHE (M, S, B) (vgsEntry now rawLine V)

/-- Witness/counterexample context: one registered awaiter (id 41) for the
switch address (1, 2, 3). -/
def ctx9 : Ctx := { ctx0 with AWAITERS := [((1, 2, 3), [41])] }

/-- Implemented reply parsing around C9: a line whose tokens are
VGS m s b v (no #) updates the switch cache at (m, s, b) with value 1 iff
v ≠ 0 and resolves and drains every awaiter for that key with the raw
line; the optional # is accepted by the RGS, RLB and RGB handlers; the
VGS cache-update handler of parsing.js accepts only the bare VGS token,
so a VGS# reply line is ignored by it. -/
theorem vgs_reply_parsing_and_hash_tokens (now : Nat) (ctx : Ctx)
    (rawLine line2 line3 : String) (tM tS tB tV : String) (M S B : Nat) (V : Int)
    (ids : List Nat)
    (htok : tokensOf rawLine = ["VGS", tM, tS, tB, tV])
    (htok2 : tokensOf line2 = ["RGS#", tM, tS, tB, tV])
    (htok3 : tokensOf line3 = ["VGS#", tM, tS, tB, tV])
    (hM : natTokVal? tM = some M) (hS : natTokVal? tS = some S)
    (hB : natTokVal? tB = some B) (hV : intTokVal? tV = some V)
    (haw : mapGet ctx.AWAITERS (M, S, B) = some ids) (hne : ids ≠ []) :
    (mapGet (processIncomingLineForVGS now rawLine ctx).VGS_CACHE (M, S, B)
        = some (vgsEntry now rawLine V) ∧
      (processIncomingLineForVGS now rawLine ctx).resolved
        = ctx.resolved ++ ids.map (fun i => (i, rawLine)) ∧
      mapGet (processIncomingLineForVGS now rawLine ctx).AWAITERS (M, S, B) = none) ∧
    mapGet (processIncomingLineForRGS now line2 ctx).VGS_CACHE (M, S, B)
        = some (vgsEntry now line2 V) ∧
    processIncomingLineForVGS now line3 ctx = ctx ∧
    mapGet (processIncomingLineForRLB 5 "RLB# 3 1 1 2 75 3" ctx0).LOAD_CACHE (3, 1, 1, 2)
        = some ⟨5, some 75, some "3", "RLB# 3 1 1 2 75 3", 17, some "RLB"⟩ ∧
    mapGet (processIncomingLineForRGB 5 "RGB# 3 1 1 2 75" ctx0).LOAD_CACHE (3, 1, 1, 2)
        = some ⟨5, some 75, none, "RGB# 3 1 1 2 75", 15, some "RGB"⟩ := by
  have hVGS : processIncomingLineForVGS now rawLine ctx
      = applySwitchReplyVGS now rawLine ctx (M, S, B, V) := by
    rw [processIncomingLineForVGS, htok,
      switchScan_single "VGS" false "VGS" tM tS tB tV M S B V (by decide) hM hS hB hV]
    rfl
  have hspec := applySwitchReplyVGS_spec now rawLine ctx M S B V
  refine ⟨⟨?_, ?_, ?_⟩, ?_, ?_, by decide, of_decide_eq_true rfl⟩
  · rw [hVGS, hspec.1]
    exact mapGet_mapSet_self _ _ _
  · rw [hVGS, hspec.2.1, haw]
    rfl
  · rw [hVGS]
    exact hspec.2.2 ids haw hne
  · rw [processIncomingLineForRGS, htok2,
      switchScan_single "RGS" true "RGS#" tM tS tB tV M S B V (by decide) hM hS hB hV]
    exact applySwitchReplyRGS_cache now line2 ctx M S B V
  · rw [processIncomingLineForVGS, htok3,
      switchScan_headMiss "VGS" false "VGS#" tM tS tB tV (by decide)]
    rfl

theorem vgs_reply_parsing_witness :
    tokensOf "VGS 1 2 3 1" = ["VGS", "1", "2", "3", "1"] ∧
    tokensOf "RGS# 1 2 3 1" = ["RGS#", "1", "2", "3", "1"] ∧
    tokensOf "VGS# 1 2 3 1" = ["VGS#", "1", "2", "3", "1"] ∧
    natTokVal? "1" = some 1 ∧ natTokVal? "2" = some 2 ∧ natTokVal? "3" = some 3 ∧
    intTokVal? "1" = some 1 ∧
    mapGet ctx9.AWAITERS (1, 2, 3) = some [41] ∧ ([41] : List Nat) ≠ [] ∧
    ((mapGet (processIncomingLineForVGS 100 "VGS 1 2 3 1" ctx9).VGS_CACHE (1, 2, 3)
        = some (vgsEntry 100 "VGS 1 2 3 1" 1) ∧
      (processIncomingLineForVGS 100 "VGS 1 2 3 1" ctx9).resolved
        = ctx9.resolved ++ ([41] : List Nat).map (fun i => (i, "VGS 1 2 3 1")) ∧
      mapGet (processIncomingLineForVGS 100 "VGS 1 2 3 1" ctx9).AWAITERS (1, 2, 3) = none) ∧
    mapGet (processIncomingLineForRGS 100 "RGS# 1 2 3 1" ctx9).VGS_CACHE (1, 2, 3)
        = some (vgsEntry 100 "RGS# 1 2 3 1" 1) ∧
    processIncomingLineForVGS 100 "VGS# 1 2 3 1" ctx9 = ctx9 ∧
    mapGet (processIncomingLineForRLB 5 "RLB# 3 1 1 2 75 3" ctx0).LOAD_CACHE (3, 1, 1, 2)
        = some ⟨5, some 75, some "3", "RLB# 3 1 1 2 75 3", 17, some "RLB"⟩ ∧
    mapGet (processIncomingLineForRGB 5 "RGB# 3 1 1 2 75" ctx0).LOAD_CACHE (3, 1, 1, 2)
        = some ⟨5, some 75, none, "RGB# 3 1 1 2 75", 15, some "RGB"⟩) :=
  ⟨by decide, of_decide_eq_true rfl, by decide, of_decide_eq_true rfl, by decide, of_decide_eq_true rfl, by decide,
    of_decide_eq_true rfl, by decide,
    vgs_reply_parsing_and_hash_tokens 100 ctx9
      "VGS 1 2 3 1" "RGS# 1 2 3 1" "VGS# 1 2 3 1" "1" "2" "3" "1" 1 2 3 1 [41]
      (by decide) (of_decide_eq_true rfl) (by decide) (of_decide_eq_true rfl) (by decide) (of_decide_eq_true rfl)
      (by decide) (of_decide_eq_true rfl) (by decide)⟩

/-- C9: the optional # should be accepted for VGS replies as well — the
repository's README documents parsing VGS# value lines and the code's own
parseVgsLine helper accepts VGS#? — so the line VGS# 1 2 3 1 should update
the switch cache for (1, 2, 3) and resolve its awaiter; instead the VGS
handler regex lacks the #?, and running the whole per-line pipeline on
that line leaves the context (cache, awaiters, logs) completely
unchanged. -/
theorem vgs_hash_line_ignored_counterexample :
    processIncomingLine 100 "VGS# 1 2 3 1" ctx9 = ctx9 ∧
    mapGet (processIncomingLine 100 "VGS# 1 2 3 1" ctx9).VGS_CACHE (1, 2, 3) = none := by
  exact ⟨by decide, of_decide_eq_true rfl⟩

/-- C6 (confirmed): a line that strips to a bare 0 or 1 pops the head key
off the bare-FIFO and attributes the update to that key only — the cache
is written at the head key with the stringified value and every awaiter of
that key is resolved with it, while every other key's cache entry and
awaiter list are untouched; with an empty FIFO the line is dropped
silently and a non-bare line leaves the handler inert. -/
theorem bare01_fifo_attribution (now : Nat) (rawLine : String) (ctx : Ctx)
    (v : Nat) (k k2 : SA) (restFifo : List SA) (ctx2 ctx3 : Ctx) (line2 : String)
    (hbare : bareValue? rawLine = some v)
    (hfifo : ctx.VGS_WAIT_ORDER = k :: restFifo)
    (hk2 : k2 ≠ k)
    (hfifo2 : ctx2.VGS_WAIT_ORDER = [])
    (hline2 : bareValue? line2 = none) :
    (processIncomingLineForBare01 now rawLine ctx).VGS_WAIT_ORDER = restFifo ∧
    mapGet (processIncomingLineForBare01 now rawLine ctx).VGS_CACHE k
      = some ⟨now, some v, toString v, rawLine.length, none⟩ ∧
    mapGet (processIncomingLineForBare01 now rawLine ctx).VGS_CACHE k2
      = mapGet ctx.VGS_CACHE k2 ∧
    mapGet (processIncomingLineForBare01 now rawLine ctx).AWAITERS k2
      = mapGet ctx.AWAITERS k2 ∧
    (processIncomingLineForBare01 now rawLine ctx).resolved
      = ctx.resolved ++ ((mapGet ctx.AWAITERS k).getD []).map (fun i => (i, toString v)) ∧
    processIncomingLineForBare01 now rawLine ctx2 = ctx2 ∧
    processIncomingLineForBare01 now line2 ctx3 = ctx3 := by
  have hrun : processIncomingLineForBare01 now rawLine ctx
      = resolveSwitchAwaiters
          { ctx with VGS_WAIT_ORDER := restFifo,
                     VGS_CACHE := mapSet ctx.VGS_CACHE k
                       ⟨now, some v, toString v, rawLine.length, none⟩ }
          k (toString v) := by
    rw [processIncomingLineForBare01, hbare, hfifo]
  have hf := resolveSwitchAwaiters_fields
      { ctx with VGS_WAIT_ORDER := restFifo,
                 VGS_CACHE := mapSet ctx.VGS_CACHE k
                   ⟨now, some v, toString v, rawLine.length, none⟩ }
      k (toString v)
  refine ⟨?_, ?_, ?_, ?_, ?_, ?_, ?_⟩
  · rw [hrun, hf.2.1]
  · rw [hrun, hf.1]
    exact mapGet_mapSet_self _ _ _
  · rw [hrun, hf.1]
    exact mapGet_mapSet_ne _ _ hk2
  · rw [hrun]
    exact resolveSwitchAwaiters_get_ne _ k (toString v) hk2
  · rw [hrun, hf.2.2.2.2.2.2]
  · rw [processIncomingLineForBare01, hbare, hfifo2]
  · rw [processIncomingLineForBare01, hline2]

/-- Witness context for the bare-0|1 scenario: two keys queued in the
bare-FIFO and two awaiters registered for the head key. -/
def ctx6 : Ctx :=
  { ctx0 with VGS_WAIT_ORDER := [(1, 2, 3), (4, 5, 6)], AWAITERS := [((1, 2, 3), [7, 8])] }

theorem bare01_fifo_attribution_witness :
    bareValue? " 1 " = some 1 ∧
    ctx6.VGS_WAIT_ORDER = (1, 2, 3) :: [(4, 5, 6)] ∧
    ((4, 5, 6) : SA) ≠ (1, 2, 3) ∧
    ctx0.VGS_WAIT_ORDER = [] ∧
    bareValue? "RGS# 1 2 3 1" = none ∧
    ((processIncomingLineForBare01 7 " 1 " ctx6).VGS_WAIT_ORDER = [(4, 5, 6)] ∧
      mapGet (processIncomingLineForBare01 7 " 1 " ctx6).VGS_CACHE (1, 2, 3)
        = some ⟨7, some 1, toString 1, (" 1 ").length, none⟩ ∧
      mapGet (processIncomingLineForBare01 7 " 1 " ctx6).VGS_CACHE (4, 5, 6)
        = mapGet ctx6.VGS_CACHE (4, 5, 6) ∧
      mapGet (processIncomingLineForBare01 7 " 1 " ctx6).AWAITERS (4, 5, 6)
        = mapGet ctx6.AWAITERS (4, 5, 6) ∧
      (processIncomingLineForBare01 7 " 1 " ctx6).resolved
        = ctx6.resolved ++ ((mapGet ctx6.AWAITERS (1, 2, 3)).getD []).map
            (fun i => (i, toString 1)) ∧
      processIncomingLineForBare01 7 " 1 " ctx0 = ctx0 ∧
      processIncomingLineForBare01 7 "RGS# 1 2 3 1" ctx0 = ctx0) :=
  ⟨by decide, of_decide_eq_true rfl, by decide, of_decide_eq_true rfl, by decide,
    bare01_fifo_attribution 7 " 1 " ctx6
      1 (1, 2, 3) (4, 5, 6) [(4, 5, 6)] ctx0 ctx0 "RGS# 1 2 3 1"
      (by decide) (of_decide_eq_true rfl) (by decide) (of_decide_eq_true rfl) (by decide)⟩

lemma mapGet_mapSet_cases {α β : Type} [DecidableEq α] (l : List (α × β)) (k k2 : α) (v : β) :
    mapGet (mapSet l k v) k2 = some v ∨
    (k2 ≠ k ∧ mapGet (mapSet l k v) k2 = mapGet l k2) := by
  by_cases h : k2 = k
  · subst h
    exact Or.inl (mapGet_mapSet_self l k2 v)
  · exact Or.inr ⟨h, mapGet_mapSet_ne l v h⟩

/-- C5 (confirmed): registering a switch awaiter when the per-key list
already holds AWAITERS_MAX_PER_KEY entries fails fast and leaves the
registry untouched, and likewise for load awaiters with
LOAD_AWAITERS_MAX_PER_KEY; when registration succeeds the list grows by
one and stays within the cap, so no per-key list ever exceeds its cap. -/
theorem awaiter_cap_never_exceeded (ctx : Ctx)
    (m s b master enc modPos load aid : Nat) (k2 : SA) (kl2 : LA)
    (hS2 : ((mapGet ctx.AWAITERS k2).getD []).length ≤ ctx.AWAITERS_MAX_PER_KEY)
    (hL2 : ((mapGet ctx.LOAD_AWAITERS kl2).getD []).length ≤ ctx.LOAD_AWAITERS_MAX_PER_KEY) :
    (ctx.AWAITERS_MAX_PER_KEY ≤ ((mapGet ctx.AWAITERS (m, s, b)).getD []).length →
      awaitVGS ctx m s b aid = (ctx, false)) ∧
    ((mapGet (awaitVGS ctx m s b aid).1.AWAITERS k2).getD []).length
        ≤ ctx.AWAITERS_MAX_PER_KEY ∧
    (ctx.LOAD_AWAITERS_MAX_PER_KEY
        ≤ ((mapGet ctx.LOAD_AWAITERS (master, enc, modPos, load)).getD []).length →
      awaitLoad ctx master enc modPos load aid = (ctx, false)) ∧
    ((mapGet (awaitLoad ctx master enc modPos load aid).1.LOAD_AWAITERS kl2).getD []).length
        ≤ ctx.LOAD_AWAITERS_MAX_PER_KEY := by
  refine ⟨?_, ?_, ?_, ?_⟩
  · intro h
    simp only [awaitVGS, if_pos h]
  · by_cases hc : ctx.AWAITERS_MAX_PER_KEY
        ≤ ((mapGet ctx.AWAITERS (m, s, b)).getD []).length
    · simp only [awaitVGS, if_pos hc]
      exact hS2
    · simp only [awaitVGS, if_neg hc]
      rcases mapGet_mapSet_cases ctx.AWAITERS (m, s, b) k2
          (((mapGet ctx.AWAITERS (m, s, b)).getD []) ++ [aid]) with hset | ⟨hne, hset⟩
      · rw [hset]
        simp only [Option.getD_some, List.length_append, List.length_cons, List.length_nil]
        omega
      · rw [hset]
        exact hS2
  · intro h
    simp only [awaitLoad, if_pos h]
  · by_cases hc : ctx.LOAD_AWAITERS_MAX_PER_KEY
        ≤ ((mapGet ctx.LOAD_AWAITERS (master, enc, modPos, load)).getD []).length
    · simp only [awaitLoad, if_pos hc]
      exact hL2
    · simp only [awaitLoad, if_neg hc]
      rcases mapGet_mapSet_cases ctx.LOAD_AWAITERS (master, enc, modPos, load) kl2
          (((mapGet ctx.LOAD_AWAITERS (master, enc, modPos, load)).getD []) ++ [aid])
          with hset | ⟨hne, hset⟩
      · rw [hset]
        simp only [Option.getD_some, List.length_append, List.length_cons, List.length_nil]
        omega
      · rw [hset]
        exact hL2

/-- Witness context for the saturation scenario: switch cap 2 with the key
(1,2,3) already holding two awaiters, load cap 1 with (1,1,1,1) holding
one. -/
def ctx5 : Ctx :=
  { ctx0 with AWAITERS := [((1, 2, 3), [1, 2])], AWAITERS_MAX_PER_KEY := 2,
              LOAD_AWAITERS := [((1, 1, 1, 1), [9])], LOAD_AWAITERS_MAX_PER_KEY := 1 }

theorem awaiter_cap_never_exceeded_witness :
    ((mapGet ctx5.AWAITERS (1, 2, 3)).getD []).length ≤ ctx5.AWAITERS_MAX_PER_KEY ∧
    ((mapGet ctx5.LOAD_AWAITERS (1, 1, 1, 1)).getD []).length
        ≤ ctx5.LOAD_AWAITERS_MAX_PER_KEY ∧
    ((ctx5.AWAITERS_MAX_PER_KEY ≤ ((mapGet ctx5.AWAITERS (1, 2, 3)).getD []).length →
        awaitVGS ctx5 1 2 3 99 = (ctx5, false)) ∧
      ((mapGet (awaitVGS ctx5 1 2 3 99).1.AWAITERS (1, 2, 3)).getD []).length
          ≤ ctx5.AWAITERS_MAX_PER_KEY ∧
      (ctx5.LOAD_AWAITERS_MAX_PER_KEY
          ≤ ((mapGet ctx5.LOAD_AWAITERS (1, 1, 1, 1)).getD []).length →
        awaitLoad ctx5 1 1 1 1 99 = (ctx5, false)) ∧
      ((mapGet (awaitLoad ctx5 1 1 1 1 99).1.LOAD_AWAITERS (1, 1, 1, 1)).getD []).length
          ≤ ctx5.LOAD_AWAITERS_MAX_PER_KEY) :=
  ⟨by decide, of_decide_eq_true rfl,
    awaiter_cap_never_exceeded ctx5 1 2 3 1 1 1 1 99 (1, 2, 3) (1, 1, 1, 1)
      (by decide) (of_decide_eq_true rfl)⟩

/-! ### C2: source order of GET /status/vgs -/

lemma statusVgs_skipPush (ctx : Ctx) (m s b now pushFreshMs cacheMs : Nat)
    (hconn : ctx.tcpConnected = true)
    (hstale : pushFreshAt ctx (m, s, b) now pushFreshMs = false) :
    statusVgs ctx true m s b now pushFreshMs cacheMs
      = statusVgsCacheStep ctx (m, s, b) (vgsCmd m s b) now cacheMs := by
  rcases hst : mapGet ctx.STATE (m, s, b) with _ | st
  · simp [statusVgs, hconn, hst]
  · have hfr : ¬ (now - st.ts < pushFreshMs) := by
      have := hstale
      rw [pushFreshAt, hst] at this
      simpa using this
    simp [statusVgs, hconn, hst, hfr]

lemma statusVgs_skipCache (ctx : Ctx) (m s b now cacheMs : Nat)
    (hstale : cacheFreshAt ctx (m, s, b) now cacheMs = false) :
    statusVgsCacheStep ctx (m, s, b) (vgsCmd m s b) now cacheMs
      = statusVgsMissStep ctx (m, s, b) (vgsCmd m s b) := by
  rcases hc : mapGet ctx.VGS_CACHE (m, s, b) with _ | r
  · simp [statusVgsCacheStep, hc]
  · have hfr : ¬ (now - r.ts < cacheMs) := by
      have := hstale
      rw [cacheFreshAt, hc] at this
      simpa using this
    simp [statusVgsCacheStep, hc, hfr]

/-- C2 (confirmed): while connected with valid m/s/b, the route consults
its sources in the fixed order push-state, cache, in-flight, new request:
a push-state entry younger than PUSH_FRESH_MS answers with no state change
and zero writes; failing that, a cache entry younger than cacheMs answers
unchanged; failing that, an in-flight request for the key is awaited
unchanged; only otherwise is the key marked in-flight and exactly one
VGS# m s b item submitted to the send queue, whose queued task registers
the awaiter, appends the key to the bare-FIFO and performs the single
on-wire write. -/
theorem status_vgs_source_order (ctxA ctxB ctxC ctxD ctxT : Ctx)
    (m s b now pushFreshMs cacheMs aid : Nat) (st : PushRec) (cr : VgsRec)
    (hA : ctxA.tcpConnected = true)
    (hAst : mapGet ctxA.STATE (m, s, b) = some st)
    (hAfresh : now - st.ts < pushFreshMs)
    (hB : ctxB.tcpConnected = true)
    (hBstale : pushFreshAt ctxB (m, s, b) now pushFreshMs = false)
    (hBc : mapGet ctxB.VGS_CACHE (m, s, b) = some cr)
    (hBfresh : now - cr.ts < cacheMs)
    (hC : ctxC.tcpConnected = true)
    (hCp : pushFreshAt ctxC (m, s, b) now pushFreshMs = false)
    (hCc : cacheFreshAt ctxC (m, s, b) now cacheMs = false)
    (hCin : (m, s, b) ∈ ctxC.VGS_INFLIGHT)
    (hD : ctxD.tcpConnected = true)
    (hDp : pushFreshAt ctxD (m, s, b) now pushFreshMs = false)
    (hDc : cacheFreshAt ctxD (m, s, b) now cacheMs = false)
    (hDin : ¬ (m, s, b) ∈ ctxD.VGS_INFLIGHT)
    (hTcap : ((mapGet ctxT.AWAITERS (m, s, b)).getD []).length < ctxT.AWAITERS_MAX_PER_KEY) :
    statusVgs ctxA true m s b now pushFreshMs cacheMs
      = (ctxA, VgsAnswer.fromPushState st.value (now - st.ts)) ∧
    statusVgs ctxB true m s b now pushFreshMs cacheMs
      = (ctxB, VgsAnswer.fromCache cr (now - cr.ts)) ∧
    statusVgs ctxC true m s b now pushFreshMs cacheMs = (ctxC, VgsAnswer.fromInflight) ∧
    ((statusVgs ctxD true m s b now pushFreshMs cacheMs).2 = VgsAnswer.newRequest ∧
      (statusVgs ctxD true m s b now pushFreshMs cacheMs).1.queueLabels
        = ctxD.queueLabels ++ [vgsCmd m s b] ∧
      (statusVgs ctxD true m s b now pushFreshMs cacheMs).1.VGS_INFLIGHT
        = ctxD.VGS_INFLIGHT ++ [(m, s, b)] ∧
      (statusVgs ctxD true m s b now pushFreshMs cacheMs).1.writes = ctxD.writes) ∧
    (mapGet (sendVGSWithAwaiterTask ctxT m s b aid (vgsCmd m s b)).1.AWAITERS (m, s, b)
        = some (((mapGet ctxT.AWAITERS (m, s, b)).getD []) ++ [aid]) ∧
      (sendVGSWithAwaiterTask ctxT m s b aid (vgsCmd m s b)).1.VGS_WAIT_ORDER
        = ctxT.VGS_WAIT_ORDER ++ [(m, s, b)] ∧
      (sendVGSWithAwaiterTask ctxT m s b aid (vgsCmd m s b)).1.writes
        = ctxT.writes ++ [vgsCmd m s b] ∧
      (sendVGSWithAwaiterTask ctxT m s b aid (vgsCmd m s b)).2 = true) := by
  have hnc : ¬ ctxT.AWAITERS_MAX_PER_KEY ≤ ((mapGet ctxT.AWAITERS (m, s, b)).getD []).length := by
    omega
  refine ⟨?_, ?_, ?_, ?_, ?_, ?_, ?_, ?_⟩
  · simp [statusVgs, hA, hAst, hAfresh]
  · rw [statusVgs_skipPush ctxB m s b now pushFreshMs cacheMs hB hBstale]
    simp [statusVgsCacheStep, hBc, hBfresh]
  · rw [statusVgs_skipPush ctxC m s b now pushFreshMs cacheMs hC hCp,
      statusVgs_skipCache ctxC m s b now cacheMs hCc]
    simp [statusVgsMissStep, hCin]
  · rw [statusVgs_skipPush ctxD m s b now pushFreshMs cacheMs hD hDp,
      statusVgs_skipCache ctxD m s b now cacheMs hDc]
    refine ⟨?_, ?_, ?_, ?_⟩ <;> simp [statusVgsMissStep, hDin]
  · simp only [sendVGSWithAwaiterTask, awaitVGS, if_neg hnc]
    exact mapGet_mapSet_self _ _ _
  · simp only [sendVGSWithAwaiterTask, awaitVGS, if_neg hnc]
  · simp only [sendVGSWithAwaiterTask, awaitVGS, if_neg hnc]
  · simp only [sendVGSWithAwaiterTask, awaitVGS, if_neg hnc]

/-- Witness contexts for the four branches of the route. -/
def ctx2A : Ctx := { ctx0 with STATE := [((1, 2, 3), ⟨1, 95⟩)] }

def ctx2B : Ctx := { ctx0 with VGS_CACHE := [((1, 2, 3), ⟨90, some 1, "1", 1, none⟩)] }

def ctx2C : Ctx := { ctx0 with VGS_INFLIGHT := [(1, 2, 3)] }

theorem status_vgs_source_order_witness :
    ctx2A.tcpConnected = true ∧
    mapGet ctx2A.STATE (1, 2, 3) = some ⟨1, 95⟩ ∧
    (100 : Nat) - (95 : Nat) < 10000 ∧
    ctx2B.tcpConnected = true ∧
    pushFreshAt ctx2B (1, 2, 3) 100 10000 = false ∧
    mapGet ctx2B.VGS_CACHE (1, 2, 3) = some ⟨90, some 1, "1", 1, none⟩ ∧
    (100 : Nat) - (90 : Nat) < 400 ∧
    ctx2C.tcpConnected = true ∧
    pushFreshAt ctx2C (1, 2, 3) 100 10000 = false ∧
    cacheFreshAt ctx2C (1, 2, 3) 100 400 = false ∧
    ((1, 2, 3) : SA) ∈ ctx2C.VGS_INFLIGHT ∧
    ctx0.tcpConnected = true ∧
    pushFreshAt ctx0 (1, 2, 3) 100 10000 = false ∧
    cacheFreshAt ctx0 (1, 2, 3) 100 400 = false ∧
    ¬ ((1, 2, 3) : SA) ∈ ctx0.VGS_INFLIGHT ∧
    ((mapGet ctx0.AWAITERS (1, 2, 3)).getD []).length < ctx0.AWAITERS_MAX_PER_KEY ∧
    (statusVgs ctx2A true 1 2 3 100 10000 400
        = (ctx2A, VgsAnswer.fromPushState (⟨1, 95⟩ : PushRec).value (100 - (⟨1, 95⟩ : PushRec).ts)) ∧
      statusVgs ctx2B true 1 2 3 100 10000 400
        = (ctx2B, VgsAnswer.fromCache ⟨90, some 1, "1", 1, none⟩ (100 - 90)) ∧
      statusVgs ctx2C true 1 2 3 100 10000 400 = (ctx2C, VgsAnswer.fromInflight) ∧
      ((statusVgs ctx0 true 1 2 3 100 10000 400).2 = VgsAnswer.newRequest ∧
        (statusVgs ctx0 true 1 2 3 100 10000 400).1.queueLabels
          = ctx0.queueLabels ++ [vgsCmd 1 2 3] ∧
        (statusVgs ctx0 true 1 2 3 100 10000 400).1.VGS_INFLIGHT
          = ctx0.VGS_INFLIGHT ++ [(1, 2, 3)] ∧
        (statusVgs ctx0 true 1 2 3 100 10000 400).1.writes = ctx0.writes) ∧
      (mapGet (sendVGSWithAwaiterTask ctx0 1 2 3 55 (vgsCmd 1 2 3)).1.AWAITERS (1, 2, 3)
          = some (((mapGet ctx0.AWAITERS (1, 2, 3)).getD []) ++ [55]) ∧
        (sendVGSWithAwaiterTask ctx0 1 2 3 55 (vgsCmd 1 2 3)).1.VGS_WAIT_ORDER
          = ctx0.VGS_WAIT_ORDER ++ [(1, 2, 3)] ∧
        (sendVGSWithAwaiterTask ctx0 1 2 3 55 (vgsCmd 1 2 3)).1.writes
          = ctx0.writes ++ [vgsCmd 1 2 3] ∧
        (sendVGSWithAwaiterTask ctx0 1 2 3 55 (vgsCmd 1 2 3)).2 = true)) :=
  ⟨by decide, of_decide_eq_true rfl, by decide, of_decide_eq_true rfl, by decide, of_decide_eq_true rfl, by decide,
    of_decide_eq_true rfl, by decide, of_decide_eq_true rfl, by decide, of_decide_eq_true rfl, by decide, of_decide_eq_true rfl,
    by decide, of_decide_eq_true rfl,
    status_vgs_source_order ctx2A ctx2B ctx2C ctx0 ctx0 1 2 3 100 10000 400 55
      ⟨1, 95⟩ ⟨90, some 1, "1", 1, none⟩
      (by decide) (of_decide_eq_true rfl) (by decide) (of_decide_eq_true rfl) (by decide) (of_decide_eq_true rfl)
      (by decide) (of_decide_eq_true rfl) (by decide) (of_decide_eq_true rfl) (by decide) (of_decide_eq_true rfl)
      (by decide) (of_decide_eq_true rfl) (by decide) (of_decide_eq_true rfl)⟩

/-! ### C3: session teardown -/

/-- C3 (amended): on session teardown ensureDisconnected rejects every
pending switch awaiter with disconnected, clears the switch awaiter
registry, clears the bare-FIFO and cancels every pending push-confirm
timer — but it leaves the load awaiter registry untouched, so load
awaiters are not rejected on teardown (they settle only through a reply or
their own timeout timer). -/
theorem disconnect_teardown_scope (ctx : Ctx) :
    (ensureDisconnected ctx).AWAITERS = [] ∧
    (ensureDisconnected ctx).VGS_WAIT_ORDER = [] ∧
    (ensureDisconnected ctx).PENDING = [] ∧
    (ensureDisconnected ctx).rejected
      = ctx.rejected
          ++ (ctx.AWAITERS.map (fun p => p.2.map (fun i => (i, "disconnected")))).flatten ∧
    (ensureDisconnected ctx).LOAD_AWAITERS = ctx.LOAD_AWAITERS ∧
    (ensureDisconnected ctx).tcpConnected = false :=
  ⟨rfl, rfl, rfl, rfl, rfl, rfl⟩

/-- Counterexample context: one load awaiter (id 7) and one switch awaiter
(id 4) pending, one confirm timer armed, one key in the bare-FIFO. -/
def ctx3c : Ctx :=
  { ctx0 with LOAD_AWAITERS := [((1, 1, 1, 1), [7])], AWAITERS := [((1, 2, 3), [4])],
              PENDING := [((1, 2, 3), 250)], VGS_WAIT_ORDER := [(1, 2, 3)] }

/-- C3 counterexample: the claim says every pending awaiter, load awaiters
included, is rejected with Disconnected on teardown; after
ensureDisconnected the load awaiter with id 7 is still registered and no
rejection was recorded for it (only the switch awaiter id 4 was
rejected). -/
theorem load_awaiters_survive_disconnect_counterexample :
    (ensureDisconnected ctx3c).LOAD_AWAITERS = [((1, 1, 1, 1), [7])] ∧
    (ensureDisconnected ctx3c).rejected = [(4, "disconnected")] ∧
    ¬ (7, "disconnected") ∈ (ensureDisconnected ctx3c).rejected := by
  refine ⟨by decide, of_decide_eq_true rfl, by decide⟩

/-! ### C4: error responses after an awaiter failure -/

/-- C4 (amended): on the vgs route any error (awaiter timeout included)
is answered from any existing cache entry, even stale, with 200 and
X-Status-Fallback: stale-cache; with no cache entry the route answers 500
(or 200 false with X-Status-Error for format=bool) — never 504.  The dim
routes answer a timeout with 504 unconditionally (and awaiters-limit with
429, anything else with 500); dimCatchStatus consults no cache, so no
stale record is ever served there. -/
theorem timeout_fallback_behaviour (ctx ctxN : Ctx) (k : SA) (fmt f2 : String) (r : VgsRec)
    (hstale : mapGet ctx.VGS_CACHE k = some r)
    (hnone : mapGet ctxN.VGS_CACHE k = none)
    (hf2 : (f2 == "bool") = false) :
    vgsCatch ctx (some k) fmt = ⟨200, true, false, some r⟩ ∧
    vgsCatch ctxN (some k) "bool" = ⟨200, false, true, none⟩ ∧
    vgsCatch ctxN (some k) f2 = ⟨500, false, true, none⟩ ∧
    dimCatchStatus "Load timeout" = 504 ∧
    dimCatchStatus "VGS timeout" = 504 ∧
    dimCatchStatus "load awaiters limit reached" = 429 ∧
    dimCatchStatus "awaiters limit reached" = 429 ∧
    dimCatchStatus "socket write failed" = 500 := by
  refine ⟨?_, ?_, ?_, by decide, of_decide_eq_true rfl, by decide, of_decide_eq_true rfl, by decide⟩
  · simp [vgsCatch, hstale]
  · simp [vgsCatch, hnone, vgsCatchNoCache]
  · simp [vgsCatch, hnone, vgsCatchNoCache, hf2]

theorem timeout_fallback_behaviour_witness :
    mapGet ctx2B.VGS_CACHE (1, 2, 3) = some ⟨90, some 1, "1", 1, none⟩ ∧
    mapGet ctx0.VGS_CACHE (1, 2, 3) = none ∧
    (("json" == "bool") = false) ∧
    (vgsCatch ctx2B (some (1, 2, 3)) "json"
        = ⟨200, true, false, some ⟨90, some 1, "1", 1, none⟩⟩ ∧
      vgsCatch ctx0 (some (1, 2, 3)) "bool" = ⟨200, false, true, none⟩ ∧
      vgsCatch ctx0 (some (1, 2, 3)) "json" = ⟨500, false, true, none⟩ ∧
      dimCatchStatus "Load timeout" = 504 ∧
      dimCatchStatus "VGS timeout" = 504 ∧
      dimCatchStatus "load awaiters limit reached" = 429 ∧
      dimCatchStatus "awaiters limit reached" = 429 ∧
      dimCatchStatus "socket write failed" = 500) :=
  ⟨by decide, of_decide_eq_true rfl, by decide,
    timeout_fallback_behaviour ctx2B ctx0 (1, 2, 3) "json" "json"
      ⟨90, some 1, "1", 1, none⟩ (by decide) (of_decide_eq_true rfl) (by decide)⟩

/-- C4 counterexample: the claim requires a 504 status when the awaiter
deadline elapses with no cache entry for the key.  On the vgs route with
an empty cache and a non-bool format, the catch handler answers 500, not
504, and sets no stale-cache header. -/
theorem vgs_timeout_without_cache_returns_500_counterexample :
    (vgsCatch ctx0 (some (1, 2, 3)) "json").status = 500 ∧
    (vgsCatch ctx0 (some (1, 2, 3)) "json").fallbackStale = false ∧
    ((500 : Nat) = 504 → False) := by
  refine ⟨by decide, of_decide_eq_true rfl, by decide⟩

/-! ### C7: push pipeline (whitelist, debounce, confirm) -/

lemma setState_new (ctx : Ctx) (m s b val now : Nat)
    (h : mapGet ctx.STATE (m, s, b) = none) :
    setState ctx m s b val now
      = { ctx with STATE := mapSet ctx.STATE (m, s, b) ⟨val, now⟩,
                   VGS_CACHE := mapSet ctx.VGS_CACHE (m, s, b) (pushMirrorEntry val now) } := by
  simp only [setState]
  rw [h]

lemma setState_diff (ctx : Ctx) (m s b val now : Nat) (p : PushRec)
    (h : mapGet ctx.STATE (m, s, b) = some p) (hne : p.value ≠ val) :
    setState ctx m s b val now
      = { ctx with STATE := mapSet ctx.STATE (m, s, b) ⟨val, now⟩,
                   VGS_CACHE := mapSet ctx.VGS_CACHE (m, s, b) (pushMirrorEntry val now) } := by
  simp only [setState]
  rw [h]
  simp [hne]

lemma setState_same (ctx : Ctx) (m s b val now : Nat) (p : PushRec)
    (h : mapGet ctx.STATE (m, s, b) = some p) (heq : p.value = val) :
    setState ctx m s b val now
      = { ctx with STATE := mapSet ctx.STATE (m, s, b) ⟨val, now⟩ } := by
  simp only [setState]
  rw [h]
  simp [heq]

/-- C7 (amended): a non-whitelisted push event is dropped entirely; a
whitelisted one cancels any pending confirm timer for the address
(cancel-and-replace via Map.set) and arms a confirm with delay 60 ms for
v = 0 and DEBOUNCE_MS for v = 1; when the confirm read fails only the
PENDING entry is dropped and PushState and the switch cache are left
untouched; when it succeeds, PushState is written with the value and the
current time, and the switch cache is mirrored only when there was no
previous push state or the value changed — a confirm of an unchanged
value refreshes the PushState timestamp but leaves the switch cache
untouched. -/
theorem push_confirm_pipeline (ctxW ctxY ctxC ctxD ctxE ctxF : Ctx)
    (m s b v val now : Nat) (p pF : PushRec)
    (hw : ¬ (m, s, b) ∈ ctxW.WHITELIST)
    (hy : (m, s, b) ∈ ctxY.WHITELIST)
    (hD : mapGet ctxD.STATE (m, s, b) = some p) (hDne : p.value ≠ val)
    (hE : mapGet ctxE.STATE (m, s, b) = none)
    (hF : mapGet ctxF.STATE (m, s, b) = some pF) (hFeq : pF.value = val) :
    onSWEvent ctxW m s b v = ctxW ∧
    (onSWEvent ctxY m s b 0).PENDING = mapSet ctxY.PENDING (m, s, b) 60 ∧
    (onSWEvent ctxY m s b 1).PENDING = mapSet ctxY.PENDING (m, s, b) DEBOUNCE_MS ∧
    confirmTimerFire ctxC m s b none now
      = { ctxC with PENDING := mapDelete ctxC.PENDING (m, s, b) } ∧
    ((confirmTimerFire ctxD m s b (some val) now).STATE
        = mapSet ctxD.STATE (m, s, b) ⟨val, now⟩ ∧
      (confirmTimerFire ctxD m s b (some val) now).VGS_CACHE
        = mapSet ctxD.VGS_CACHE (m, s, b) (pushMirrorEntry val now)) ∧
    ((confirmTimerFire ctxE m s b (some val) now).STATE
        = mapSet ctxE.STATE (m, s, b) ⟨val, now⟩ ∧
      (confirmTimerFire ctxE m s b (some val) now).VGS_CACHE
        = mapSet ctxE.VGS_CACHE (m, s, b) (pushMirrorEntry val now)) ∧
    ((confirmTimerFire ctxF m s b (some val) now).STATE
        = mapSet ctxF.STATE (m, s, b) ⟨val, now⟩ ∧
      (confirmTimerFire ctxF m s b (some val) now).VGS_CACHE = ctxF.VGS_CACHE) := by
  have hDrun : confirmTimerFire ctxD m s b (some val) now
      = setState { ctxD with PENDING := mapDelete ctxD.PENDING (m, s, b) } m s b val now := rfl
  have hErun : confirmTimerFire ctxE m s b (some val) now
      = setState { ctxE with PENDING := mapDelete ctxE.PENDING (m, s, b) } m s b val now := rfl
  have hFrun : confirmTimerFire ctxF m s b (some val) now
      = setState { ctxF with PENDING := mapDelete ctxF.PENDING (m, s, b) } m s b val now := rfl
  have hD2 : mapGet ({ ctxD with PENDING := mapDelete ctxD.PENDING (m, s, b) } : Ctx).STATE
      (m, s, b) = some p := hD
  have hE2 : mapGet ({ ctxE with PENDING := mapDelete ctxE.PENDING (m, s, b) } : Ctx).STATE
      (m, s, b) = none := hE
  have hF2 : mapGet ({ ctxF with PENDING := mapDelete ctxF.PENDING (m, s, b) } : Ctx).STATE
      (m, s, b) = some pF := hF
  refine ⟨?_, ?_, ?_, rfl, ?_, ?_, ?_⟩
  · simp [onSWEvent, hw]
  · simp [onSWEvent, hy]
  · simp [onSWEvent, hy, DEBOUNCE_MS]
  · rw [hDrun, setState_diff _ m s b val now p hD2 hDne]
    exact ⟨rfl, rfl⟩
  · rw [hErun, setState_new _ m s b val now hE2]
    exact ⟨rfl, rfl⟩
  · rw [hFrun, setState_same _ m s b val now pF hF2 hFeq]
    exact ⟨rfl, rfl⟩

/-- Witness context for the unchanged-value confirm: push state already 1
for (1,2,3) with an old cache entry to watch. -/
def ctx7F : Ctx :=
  { ctx0 with STATE := [((1, 2, 3), ⟨1, 5⟩)],
              VGS_CACHE := [((1, 2, 3), ⟨5, some 1, "1", 1, some "push-state"⟩)],
              WHITELIST := [(1, 2, 3)] }

/-- Witness context with a previous push state of the opposite value. -/
def ctx7D : Ctx := { ctx0 with STATE := [((1, 2, 3), ⟨0, 5⟩)] }

theorem push_confirm_pipeline_witness :
    ¬ ((1, 2, 3) : SA) ∈ ctx0.WHITELIST ∧
    ((1, 2, 3) : SA) ∈ ctx7F.WHITELIST ∧
    mapGet ctx7D.STATE (1, 2, 3) = some ⟨0, 5⟩ ∧
    ((⟨0, 5⟩ : PushRec).value ≠ 1) ∧
    mapGet ctx0.STATE (1, 2, 3) = none ∧
    mapGet ctx7F.STATE (1, 2, 3) = some ⟨1, 5⟩ ∧
    ((⟨1, 5⟩ : PushRec).value = 1) ∧
    (onSWEvent ctx0 1 2 3 1 = ctx0 ∧
      (onSWEvent ctx7F 1 2 3 0).PENDING = mapSet ctx7F.PENDING (1, 2, 3) 60 ∧
      (onSWEvent ctx7F 1 2 3 1).PENDING = mapSet ctx7F.PENDING (1, 2, 3) DEBOUNCE_MS ∧
      confirmTimerFire ctx0 1 2 3 none 1000
        = { ctx0 with PENDING := mapDelete ctx0.PENDING (1, 2, 3) } ∧
      ((confirmTimerFire ctx7D 1 2 3 (some 1) 1000).STATE
          = mapSet ctx7D.STATE (1, 2, 3) ⟨1, 1000⟩ ∧
        (confirmTimerFire ctx7D 1 2 3 (some 1) 1000).VGS_CACHE
          = mapSet ctx7D.VGS_CACHE (1, 2, 3) (pushMirrorEntry 1 1000)) ∧
      ((confirmTimerFire ctx0 1 2 3 (some 1) 1000).STATE
          = mapSet ctx0.STATE (1, 2, 3) ⟨1, 1000⟩ ∧
        (confirmTimerFire ctx0 1 2 3 (some 1) 1000).VGS_CACHE
          = mapSet ctx0.VGS_CACHE (1, 2, 3) (pushMirrorEntry 1 1000)) ∧
      ((confirmTimerFire ctx7F 1 2 3 (some 1) 1000).STATE
          = mapSet ctx7F.STATE (1, 2, 3) ⟨1, 1000⟩ ∧
        (confirmTimerFire ctx7F 1 2 3 (some 1) 1000).VGS_CACHE = ctx7F.VGS_CACHE)) :=
  ⟨by decide, of_decide_eq_true rfl, by decide, of_decide_eq_true rfl, by decide, of_decide_eq_true rfl, by decide,
    push_confirm_pipeline ctx0 ctx7F ctx0 ctx7D ctx0 ctx7F 1 2 3 1 1 1000
      ⟨0, 5⟩ ⟨1, 5⟩ (by decide) (of_decide_eq_true rfl) (by decide) (of_decide_eq_true rfl) (by decide)
      (of_decide_eq_true rfl) (by decide)⟩

/-- C7 counterexample: the claim says a successful confirm is always
mirrored to the switch cache.  With push state already holding value 1
(ts 5) and the cache entry dating from ts 5, a successful confirm of the
same value 1 at instant 1000 leaves the cache entry at ts 5: it does not
become the freshly mirrored record. -/
theorem confirm_same_value_not_mirrored_counterexample :
    mapGet (confirmTimerFire ctx7F 1 2 3 (some 1) 1000).VGS_CACHE (1, 2, 3)
      = some ⟨5, some 1, "1", 1, some "push-state"⟩ ∧
    ¬ mapGet (confirmTimerFire ctx7F 1 2 3 (some 1) 1000).VGS_CACHE (1, 2, 3)
      = some (pushMirrorEntry 1 1000) := by
  refine ⟨by decide, of_decide_eq_true rfl⟩

/-! ### C10: the /send and /test/vsw collection window runs inside the
queued task -/

/-- Duration of the queued fn built by POST /send (io.js lines 44-73) and
by /test/vsw (test.js lines 27-32) when a collection window is requested:
the fn first performs the write (writeMs) and then sleeps waitMs — or
collects bytes for the quiet window — before returning, so the window is
part of the fn itself. -/
def ioSendTaskDuration (writeMs windowMs : Nat) : Nat := writeMs + windowMs

/-- C10 (confirmed): when the byte-collection window runs inside the
queued fn, the item's completion time equals the end of the window, so the
send queue is held for the whole window: the pumper cannot start the next
queued fn before the window ends, and in fact starts it no earlier than
MIN_GAP_MS after the end of the window. -/
theorem send_window_holds_queue (gapMs writeMs windowMs : Nat) (st : PumpState)
    (item : SendItem)
    (hdur : item.duration = ioSendTaskDuration writeMs windowMs)
    (hsucc : item.succeeds = true) :
    (pumpStep gapMs st item).2 = some (fnStartTime gapMs st + writeMs + windowMs) ∧
    fnStartTime gapMs st + writeMs + windowMs ≤ fnStartTime gapMs (pumpStep gapMs st item).1 ∧
    fnStartTime gapMs st + writeMs + windowMs + gapMs
      ≤ fnStartTime gapMs (pumpStep gapMs st item).1 := by
  have he : pumpStep gapMs st item
      = (⟨fnStartTime gapMs st + (writeMs + windowMs),
          fnStartTime gapMs st + (writeMs + windowMs)⟩,
         some (fnStartTime gapMs st + (writeMs + windowMs))) := by
    simp [pumpStep, hsucc, hdur, ioSendTaskDuration]
  rw [he]
  refine ⟨by simp [Nat.add_assoc], ?_, ?_⟩
  · simp only [fnStartTime]
    omega
  · simp only [fnStartTime]
    omega

theorem send_window_holds_queue_witness :
    ((⟨5, 0, 802, true, 1⟩ : SendItem).duration = ioSendTaskDuration 2 800) ∧
    ((⟨5, 0, 802, true, 1⟩ : SendItem).succeeds = true) ∧
    ((pumpStep 120 ⟨0, 0⟩ ⟨5, 0, 802, true, 1⟩).2
        = some (fnStartTime 120 ⟨0, 0⟩ + 2 + 800) ∧
      fnStartTime 120 ⟨0, 0⟩ + 2 + 800
        ≤ fnStartTime 120 (pumpStep 120 ⟨0, 0⟩ ⟨5, 0, 802, true, 1⟩).1 ∧
      fnStartTime 120 ⟨0, 0⟩ + 2 + 800 + 120
        ≤ fnStartTime 120 (pumpStep 120 ⟨0, 0⟩ ⟨5, 0, 802, true, 1⟩).1) :=
  ⟨by decide, of_decide_eq_true rfl,
    send_window_holds_queue 120 2 800 ⟨0, 0⟩ ⟨5, 0, 802, true, 1⟩ (by decide) (of_decide_eq_true rfl)⟩

end VantageQlink
